import Mathlib

/-!
Verification of the Forecast Calibration and Ensemble Pipeline.

Shallow embedding of the numeric core of the pipeline
(python-worker/app/modules/forecast).  All machine floats are modelled as
exact rationals; column-wise pandas operations become list operations, and
a DataFrame becomes a time index together with named numeric columns.
-/

namespace SolarForecast

/-- A pandas Series of numbers: one rational per row. -/
abbrev Series := List ℚ

/-- A pandas DataFrame: a time index (timestamps, abstract integers) and
named numeric columns, in insertion order. -/
structure Frame where
  index : List ℤ
  cols : List (String × Series)
deriving Repr, DecidableEq

/-- Column lookup, as forecast.columns membership plus access. -/
def Frame.getCol (f : Frame) (name : String) : Option Series :=
  (f.cols.find? (fun p => p.1 == name)).map Prod.snd

/-- pandas clip(lower, upper) on one value (numpy semantics: upper wins). -/
def clip2 (lo hi x : ℚ) : ℚ := min (max x lo) hi

/-- Multiply the named columns elementwise by a factor series, leaving the
other columns untouched (the pandas pattern
  for col in power_columns: if col in adjusted.columns: adjusted[col] *= factor). -/
def mulColsSeries (f : Frame) (names : List String) (factors : Series) : Frame :=
  { f with cols := f.cols.map (fun p =>
      if p.1 ∈ names then (p.1, List.zipWith (· * ·) p.2 factors) else p) }

/-- Multiply the named columns by one scalar, leaving the others untouched. -/
def mulColsScalar (f : Frame) (names : List String) (c : ℚ) : Frame :=
  { f with cols := f.cols.map (fun p =>
      if p.1 ∈ names then (p.1, p.2.map (· * c)) else p) }

/-!  ## Capacity Enforcer
unified_forecast.py, _apply_capacity_constraints: clips every numeric
column of the forecast to [0, plant_capacity]; in this model every column
is numeric.  It only logs overages, it never raises (the function is
total). -/

def apply_capacity_constraints (forecast : Frame) (plant_capacity : ℚ) : Frame :=
  { forecast with cols := forecast.cols.map (fun p =>
      (p.1, p.2.map (clip2 0 plant_capacity))) }

/-!  ## Quantile Band Builder
forecast_models.py, predict_with_uncertainty.  All of its transforms are
row-local, so the per-row function captures the whole frame transform via
List.map.  The five standard quantile models (p10 p25 p50 p75 p90) are
present, so prediction = p50, uncertainty_lower = p10,
uncertainty_upper = p90.  np.sin(np.radians e) is passed in as the
abstract function sinr, since no downstream branch depends on its values. -/

/-- Per-row model inputs: the five raw quantile model outputs, plus the
solar-position elevation and the ghi feature of that row. -/
structure PredFeatures where
  q10 : ℚ
  q25 : ℚ
  q50 : ℚ
  q75 : ℚ
  q90 : ℚ
  elevation : ℚ
  ghi : ℚ
deriving Repr, DecidableEq

/-- One output row of predict_with_uncertainty. -/
structure PredRow where
  p10 : ℚ
  p25 : ℚ
  p50 : ℚ
  p75 : ℚ
  p90 : ℚ
  prediction : ℚ
  uncertainty_lower : ℚ
  uncertainty_upper : ℚ
deriving Repr, DecidableEq

/-- Apply one scalar map to every channel of a row (frame-wide clip). -/
def PredRow.mapAll (g : ℚ → ℚ) (r : PredRow) : PredRow :=
  ⟨g r.p10, g r.p25, g r.p50, g r.p75, g r.p90,
   g r.prediction, g r.uncertainty_lower, g r.uncertainty_upper⟩

/-- The all-zero row produced by night masking (predictions.loc[mask] = 0.0). -/
def PredRow.zero : PredRow := ⟨0, 0, 0, 0, 0, 0, 0, 0⟩

/-- The soft physics ceiling for one row:
physics_max = (capacity or 870) * (ghi/1000) * sin(radians elevation) * 1.1,
capped at 95% capacity, when elevation > 0 and ghi > 0; else 0. -/
def physicsMax (sinr : ℚ → ℚ) (capacity_kw : Option ℚ) (ghi elevation : ℚ) : ℚ :=
  let cap := capacity_kw.getD 870
  if 0 < elevation ∧ 0 < ghi then
    min (cap * (ghi / 1000) * sinr elevation * (11 / 10)) (cap * (95 / 100))
  else 0

/-- The left-to-right monotonicity repair across the ordered quantile
columns: each column becomes max(previous updated column, itself). -/
def repair5 (a b c d e : ℚ) : ℚ × ℚ × ℚ × ℚ × ℚ :=
  let b2 := max a b
  let c2 := max b2 c
  let d2 := max c2 d
  let e2 := max d2 e
  (a, b2, c2, d2, e2)

/-- predict_with_uncertainty on one row, after the per-quantile models ran:
assemble channels, clip negatives, clip to capacity, night-mask, apply the
soft physics ceiling (only when solar position and the ghi feature are
available), then repair monotonicity of the five quantile columns. -/
def predict_row (clip_negative : Bool) (capacity_kw : Option ℚ)
    (has_solar has_ghi : Bool) (sinr : ℚ → ℚ) (x : PredFeatures) : PredRow :=
  let r0 : PredRow := ⟨x.q10, x.q25, x.q50, x.q75, x.q90, x.q50, x.q10, x.q90⟩
  let r1 := if clip_negative then r0.mapAll (fun v => max v 0) else r0
  let r2 := match capacity_kw with
            | some c => r1.mapAll (fun v => min v c)
            | none => r1
  let r3 := if has_solar then (if x.elevation ≤ 0 then PredRow.zero else r2) else r2
  let r4 := if has_solar && has_ghi then
              let pm := physicsMax sinr capacity_kw x.ghi x.elevation
              r3.mapAll (fun v => if pm * (12 / 10) < v then pm else v)
            else r3
  let m := repair5 r4.p10 r4.p25 r4.p50 r4.p75 r4.p90
  { r4 with p10 := m.1, p25 := m.2.1, p50 := m.2.2.1,
            p75 := m.2.2.2.1, p90 := m.2.2.2.2 }

/-- predict_with_uncertainty over the whole feature frame. -/
def predict_with_uncertainty (clip_negative : Bool) (capacity_kw : Option ℚ)
    (has_solar has_ghi : Bool) (sinr : ℚ → ℚ) (xs : List PredFeatures) : List PredRow :=
  xs.map (predict_row clip_negative capacity_kw has_solar has_ghi sinr)

/-!  ## Ensemble Combiner
forecast_models.py, create_ensemble_forecast.  The Python ValueErrors are
modelled as an error type whose constructors carry the spec-level names:
"No forecasts provided" = EmptyEnsemble, "Weights must sum to 1" =
InvalidWeights, "Forecast ... has different index" = ShapeMismatch,
"Unknown ensemble method" = UnknownMethod. -/

inductive EnsembleError where
  | EmptyEnsemble
  | InvalidWeights
  | ShapeMismatch
  | UnknownMethod
deriving Repr, DecidableEq

/-- weights.get(name, 0): association-list lookup with default 0. -/
def weightOf (weights : List (String × ℚ)) (name : String) : ℚ :=
  ((weights.find? (fun p => p.1 == name)).map Prod.snd).getD 0

/-- sum(weights.values()). -/
def sumWeights (weights : List (String × ℚ)) : ℚ := (weights.map Prod.snd).sum

/-- Elementwise sum of a list of equal-length series starting from
pd.Series(0, index=first_index). -/
def seriesZero (n : ℕ) : Series := List.replicate n 0

/-- The union of the column names of all forecasts, in encounter order
(the Python code collects them into a set). -/
def allColumnNames (forecasts : List (String × Frame)) : List String :=
  ((forecasts.map (fun p => p.2.cols.map Prod.fst)).flatten).dedup

/-- Median of a list of rationals, pandas-style: midpoint of the sorted
list, averaging the two central elements for even length. -/
def insertSorted (x : ℚ) : List ℚ → List ℚ
  | [] => [x]
  | y :: ys => if x ≤ y then x :: y :: ys else y :: insertSorted x ys

def sortQ (l : List ℚ) : List ℚ := l.foldr insertSorted []

def medianQ (l : List ℚ) : ℚ :=
  let s := sortQ l
  let n := s.length
  if n = 0 then 0
  else if n % 2 = 1 then (s.get? (n / 2)).getD 0
  else (((s.get? (n / 2 - 1)).getD 0) + ((s.get? (n / 2)).getD 0)) / 2

/-- For one column name, the weighted_average combination over the sources
that define that column: weight-normalized elementwise sum; None when the
total weight is not positive (column then omitted from the output). -/
def weightedColumn (forecasts : List (String × Frame))
    (weights : List (String × ℚ)) (n : ℕ) (col : String) : Option Series :=
  let step := fun (acc : Series × ℚ) (p : String × Frame) =>
    match p.2.getCol col with
    | some s => (List.zipWith (· + ·) acc.1 (s.map (· * weightOf weights p.1)),
                 acc.2 + weightOf weights p.1)
    | none => acc
  let r := forecasts.foldl step (seriesZero n, 0)
  if 0 < r.2 then some (r.1.map (· / r.2)) else none

/-- For one column name, the values of that column at row i across the
sources that define it (pandas concat + groupby: NaN rows skipped). -/
def columnValuesAt (forecasts : List (String × Frame)) (col : String) (i : ℕ) : List ℚ :=
  forecasts.filterMap (fun p => (p.2.getCol col).bind (fun s => s.get? i))

def create_ensemble_forecast (forecasts : List (String × Frame))
    (weights : Option (List (String × ℚ))) (method : String) :
    Except EnsembleError Frame :=
  match forecasts with
  | [] => .error .EmptyEnsemble
  | f0 :: _ =>
    let ws := match weights with
              | some w => w
              | none => forecasts.map (fun p => (p.1, 1 / (forecasts.length : ℚ)))
    if 1 / 1000000 < |sumWeights ws - 1| then .error .InvalidWeights
    else
      let firstIndex := f0.2.index
      if forecasts.any (fun p => p.2.index ≠ firstIndex) then .error .ShapeMismatch
      else
        let n := firstIndex.length
        let names := allColumnNames forecasts
        if method = "weighted_average" then
          .ok { index := firstIndex,
                cols := names.filterMap (fun c =>
                  (weightedColumn forecasts ws n c).map (fun s => (c, s))) }
        else if method = "median" then
          .ok { index := firstIndex,
                cols := names.map (fun c =>
                  (c, (List.range n).map (fun i => medianQ (columnValuesAt forecasts c i)))) }
        else if method = "mean" then
          .ok { index := firstIndex,
                cols := names.map (fun c =>
                  (c, (List.range n).map (fun i =>
                    let vs := columnValuesAt forecasts c i
                    vs.sum / (vs.length : ℚ)))) }
        else .error .UnknownMethod

/-!  ## Transition Enhancer, dawn/dusk stage
shoulders_enhancement.py, apply_dawn_dusk_factors.  The multiplier is 1.0
by default; rows with transition_start < elevation <= transition_end get
the linear interpolation from dawn_dusk_factor toward 1.0; all other rows
(including every elevation <= -6) keep the default 1.0. -/

def dawn_dusk_performance_factor (dawn_dusk_factor elevation : ℚ) : ℚ :=
  let transition_start : ℚ := -6
  let transition_end : ℚ := 15
  if transition_start < elevation ∧ elevation ≤ transition_end then
    dawn_dusk_factor + (1 - dawn_dusk_factor) *
      ((elevation - transition_start) / (transition_end - transition_start))
  else 1

/-- Frame-level apply_dawn_dusk_factors: multiplies the ac and dc power
columns by the per-row factor; unchanged when solar_elevation is absent. -/
def apply_dawn_dusk_factors (forecast : Frame) (dawn_dusk_factor : ℚ) : Frame :=
  match forecast.getCol "solar_elevation" with
  | none => forecast
  | some elev =>
    mulColsSeries forecast ["ac_power_kw", "dc_power_kw"]
      (elev.map (dawn_dusk_performance_factor dawn_dusk_factor))

/-!  ## Performance Calibrator
performance_adjustment.py.  The config dicts become records whose fields
are the values the code reads out with .get (defaults already applied). -/

/-- performance_config: the four cloud-band ratios read by
apply_weather_performance_ratios (.get with defaults 0.97/0.90/0.85/0.75). -/
structure PerformanceConfig where
  clear_sky : ℚ
  partly_cloudy : ℚ
  cloudy : ℚ
  overcast : ℚ
deriving Repr, DecidableEq

/-- calibration_config: optional 12-entry monthly factors and the global
adjustment_factor (default 1.0). -/
structure CalibrationConfig where
  seasonal_adjustments : Option (List ℚ)
  adjustment_factor : ℚ
deriving Repr, DecidableEq

/-- The power columns the calibrator multiplies. -/
def powerColumns9 : List String :=
  ["prediction", "p10", "p25", "p50", "p75", "p90",
   "ac_power_kw", "uncertainty_lower", "uncertainty_upper"]

/-- The columns the global calibration factor multiplies. -/
def calColumns6 : List String := ["prediction", "p10", "p25", "p50", "p75", "p90"]

/-- The hardcoded interp1d over knots [0,20,50,80,100] with values
[0.97, 0.90, 0.85, 0.75, 0.75], linear, extrapolating the end segments. -/
def interpCloudRatio (c : ℚ) : ℚ :=
  if c ≤ 20 then 97 / 100 + (90 / 100 - 97 / 100) * (c / 20)
  else if c ≤ 50 then 90 / 100 + (85 / 100 - 90 / 100) * ((c - 20) / 30)
  else if c ≤ 80 then 85 / 100 + (75 / 100 - 85 / 100) * ((c - 50) / 30)
  else 75 / 100

/-- smooth_performance_transitions: builds its interpolant from the
hardcoded transitions/ratios lists and evaluates it at cloud_cover; the
incoming performance_ratio series contributes only its index. -/
def smooth_performance_transitions (performance_ratio cloud_cover : Series) : Series :=
  cloud_cover.map interpCloudRatio

/-- The discrete cloud-band ratio series built from the configured ratios
before smoothing (performance_ratio[masks] = configured ratios). -/
def discreteCloudRatios (pc : PerformanceConfig) (cloud_cover : Series) : Series :=
  cloud_cover.map (fun c =>
    if c ≤ 20 then pc.clear_sky
    else if c ≤ 50 then pc.partly_cloudy
    else if c ≤ 80 then pc.cloudy
    else pc.overcast)

def apply_weather_performance_ratios (forecast weather_data : Frame)
    (performance_config : PerformanceConfig) : Frame :=
  match weather_data.getCol "cloud_cover" with
  | none => forecast
  | some cloud_cover =>
    let performance_ratio := discreteCloudRatios performance_config cloud_cover
    let smoothed := smooth_performance_transitions performance_ratio cloud_cover
    mulColsSeries forecast powerColumns9 smoothed

/-- apply_seasonal_adjustments: 12 monthly factors looked up by the
calendar month of each timestamp (month is the timestamp→month map,
abstract here since timestamps are abstract). -/
def apply_seasonal_adjustments (month : ℤ → ℕ) (forecast : Frame)
    (seasonal_adjustments : Option (List ℚ)) : Frame :=
  match seasonal_adjustments with
  | none => forecast
  | some adj =>
    if adj.length ≠ 12 then forecast
    else
      let factors := forecast.index.map (fun t => (adj.get? (month t - 1)).getD 1)
      mulColsSeries forecast powerColumns9 factors

/-- The global calibration factor step inside apply_performance_adjustments
(applied only when the factor differs from 1.0, to the six columns). -/
def applyCalibrationFactor (forecast : Frame) (cal_factor : ℚ) : Frame :=
  if cal_factor = 1 then forecast
  else mulColsScalar forecast calColumns6 cal_factor

/-- np.repeat(temp, repeat_factor)[:n] with repeat_factor = ceil(n/len). -/
def repeatTo (l : List ℚ) (n : ℕ) : List ℚ :=
  let rf := (n + l.length - 1) / l.length
  ((l.map (List.replicate rf)).flatten).take n

/-- The per-row temperature derating factor (thresholds hardcoded). -/
def derateOfTemp (t : ℚ) : ℚ :=
  if 35 < t ∧ t ≤ 40 then 98 / 100
  else if 40 < t then 95 / 100
  else 1

def apply_temperature_derating (forecast weather_data : Frame)
    (performance_config : PerformanceConfig) : Frame :=
  match weather_data.getCol "temp_air" with
  | none => forecast
  | some temps =>
    let n := forecast.index.length
    if weather_data.index.length = 0 then
      mulColsSeries forecast powerColumns9 (List.replicate n 1)
    else
      let temp := if temps.length ≠ n then
                    (if temps.length < n then repeatTo temps n else temps.take n)
                  else temps
      let factors := (List.range n).map (fun i =>
        match temp.get? i with
        | some t => derateOfTemp t
        | none => 1)
      mulColsSeries forecast powerColumns9 factors

/-- apply_dynamic_soiling: the source is an explicit placeholder that
returns its input forecast unchanged. -/
def apply_dynamic_soiling (forecast : Frame) (calibration_config : CalibrationConfig) : Frame :=
  forecast

/-- apply_performance_adjustments: weather ratios, seasonal adjustments,
global calibration factor, temperature derating, dynamic soiling — in that
order, and nothing else (in particular no degradation step). -/
def apply_performance_adjustments (month : ℤ → ℕ) (forecast weather_data : Frame)
    (performance_config : PerformanceConfig)
    (calibration_config : CalibrationConfig) : Frame :=
  apply_dynamic_soiling
    (apply_temperature_derating
      (applyCalibrationFactor
        (apply_seasonal_adjustments month
          (apply_weather_performance_ratios forecast weather_data performance_config)
          calibration_config.seasonal_adjustments)
        calibration_config.adjustment_factor)
      weather_data performance_config)
    calibration_config

/-- adjust_for_degradation: multiplies every power column by the single
scalar degradation factor.  In the source the scalar is
(1 - annual_degradation_rate) ** years_elapsed, computed once from the
installation date with float pow; here it arrives as the precomputed
rational scalar degradation_factor. -/
def adjust_for_degradation (forecast : Frame) (degradation_factor : ℚ) : Frame :=
  mulColsScalar forecast powerColumns9 degradation_factor

/-!  ## Resolution Resampler
time_resolution.py, resample_forecast_to_15min, energy_mwh channel, for a
four-point hourly series.  pandas resample('15min').interpolate('cubic')
evaluates scipy's cubic spline on the 15-minute grid running from the
first to the last hourly timestamp — 13 points for 4 hourly points; for
exactly 4 data points the not-a-knot cubic spline is the unique degree-3
interpolating polynomial, written here in Lagrange form over nodes
0,1,2,3 (hours).  The interpolant is clipped to >= 0 and the energy
column is then divided by 4. -/

def cubicInterp4 (y0 y1 y2 y3 t : ℚ) : ℚ :=
  y0 * ((t - 1) * (t - 2) * (t - 3)) / (-6)
  + y1 * (t * (t - 2) * (t - 3)) / 2
  + y2 * (t * (t - 1) * (t - 3)) / (-2)
  + y3 * (t * (t - 1) * (t - 2)) / 6

/-- The 15-minute grid over 4 hourly points: 0, 1/4, ..., 3 (13 points). -/
def quarterGrid : List ℚ := (List.range 13).map (fun i => (i : ℚ) / 4)

def resample_energy_to_15min (y0 y1 y2 y3 : ℚ) : Series :=
  quarterGrid.map (fun t => max (cubicInterp4 y0 y1 y2 y3 t) 0 / 4)

/-!  ## Validation Gate, accuracy branch
performance_adjustment.py, validate_forecast_comprehensive, step 2, with
the thresholds of create_validation_framework: target_mape 1.0,
warning_mape 5.0, failure_mape 10.0.  The report is modelled by its
pass flag and the lengths of its failure and warning lists. -/

def target_mape : ℚ := 1
def warning_mape : ℚ := 5
def failure_mape : ℚ := 10

structure ValidationReport where
  validation_passed : Bool
  critical_failures : ℕ
  warnings : ℕ
deriving Repr, DecidableEq

/-- The MAPE branch run when actual data is provided: above failure_mape
append a critical failure and fail the gate; else above warning_mape
append a warning; else (mape <= warning_mape) change nothing. -/
def mape_validation_step (mape : ℚ) (r : ValidationReport) : ValidationReport :=
  if target_mape < mape then
    if failure_mape < mape then
      { r with critical_failures := r.critical_failures + 1, validation_passed := false }
    else if warning_mape < mape then
      { r with warnings := r.warnings + 1 }
    else r
  else r

/-!  # Theorems -/

/-- Shared fact: the repaired quantile tuple is an ascending chain. -/
theorem repair5_chain (a b c d e : ℚ) :
    (repair5 a b c d e).1 ≤ (repair5 a b c d e).2.1 ∧
    (repair5 a b c d e).2.1 ≤ (repair5 a b c d e).2.2.1 ∧
    (repair5 a b c d e).2.2.1 ≤ (repair5 a b c d e).2.2.2.1 ∧
    (repair5 a b c d e).2.2.2.1 ≤ (repair5 a b c d e).2.2.2.2 := by
  refine ⟨le_max_left a b, le_max_left _ c, le_max_left _ d, le_max_left _ e⟩

/-- C1: after the Capacity Enforcer (_apply_capacity_constraints), every
value of every numeric channel lies in [0, capacity], for every input
forecast frame and every nonnegative plant capacity; the enforcer is a
total clipping function, it never raises on an overage. -/
theorem capacity_enforcer_bounds (f : Frame) (cap : ℚ) (hcap : 0 ≤ cap) :
    ∀ p ∈ (apply_capacity_constraints f cap).cols, ∀ v ∈ p.2, 0 ≤ v ∧ v ≤ cap := by
  intro p hp v hv
  simp only [apply_capacity_constraints, List.mem_map] at hp
  obtain ⟨q, _, rfl⟩ := hp
  simp only [List.mem_map] at hv
  obtain ⟨x, _, rfl⟩ := hv
  exact ⟨le_min (le_max_right x 0) hcap, min_le_right _ _⟩

/-- C1 witness: a concrete adversarial frame (values at 10x a capacity of
1) is clipped into [0, 1]. -/
theorem capacity_enforcer_bounds_witness :
    (0 : ℚ) ≤ 1 ∧
    ∀ p ∈ (apply_capacity_constraints
            ⟨[0, 1], [("prediction", [10, -2]), ("p90", [3, 1/2])]⟩ 1).cols,
      ∀ v ∈ p.2, 0 ≤ v ∧ v ≤ 1 :=
  ⟨by norm_num, capacity_enforcer_bounds _ 1 (by norm_num)⟩

/-- C2: with a solar_position argument, every row whose solar elevation is
at most 0 carries exactly 0 on all eight output channels of
predict_with_uncertainty — the soft physics ceiling and the monotonicity
repair, applied afterwards, leave the row at zero; and the frame-level
output is the row map, so this covers every such row of the output. -/
theorem night_rows_all_zero (clip_negative has_ghi : Bool) (capacity_kw : Option ℚ)
    (sinr : ℚ → ℚ) (xs : List PredFeatures) (x : PredFeatures)
    (h : x.elevation ≤ 0) :
    predict_with_uncertainty clip_negative capacity_kw true has_ghi sinr xs
      = xs.map (predict_row clip_negative capacity_kw true has_ghi sinr)
    ∧ predict_row clip_negative capacity_kw true has_ghi sinr x = PredRow.zero := by
  refine ⟨rfl, ?_⟩
  have h1 : ¬ (0 : ℚ) < x.elevation := not_lt.mpr h
  cases has_ghi <;>
    simp [predict_row, physicsMax, repair5, PredRow.mapAll, PredRow.zero, h, h1]

/-- C2 witness: a concrete night row (elevation -3) with raw quantile
outputs far above zero comes out all-zero. -/
theorem night_rows_all_zero_witness :
    (⟨500, 600, 700, 800, 900, -3, 100⟩ : PredFeatures).elevation ≤ 0 ∧
    predict_row true (some 870) true true (fun _ => 1)
        ⟨500, 600, 700, 800, 900, -3, 100⟩ = PredRow.zero :=
  ⟨by norm_num,
   (night_rows_all_zero true true (some 870) (fun _ => 1) []
      ⟨500, 600, 700, 800, 900, -3, 100⟩ (by norm_num)).2⟩

/-- C3: after the monotonicity repair of predict_with_uncertainty, every
output row satisfies p10 <= p25 <= p50 <= p75 <= p90 (for every input row
and every flag combination); and the repair itself only ever raises a
higher quantile to the running pairwise maximum of its predecessors —
its output is exactly the running-max tuple and is pointwise at least its
input, never below it. -/
theorem quantile_monotonicity_repair (clip_negative has_solar has_ghi : Bool)
    (capacity_kw : Option ℚ) (sinr : ℚ → ℚ) (x : PredFeatures) :
    ((predict_row clip_negative capacity_kw has_solar has_ghi sinr x).p10 ≤
       (predict_row clip_negative capacity_kw has_solar has_ghi sinr x).p25 ∧
     (predict_row clip_negative capacity_kw has_solar has_ghi sinr x).p25 ≤
       (predict_row clip_negative capacity_kw has_solar has_ghi sinr x).p50 ∧
     (predict_row clip_negative capacity_kw has_solar has_ghi sinr x).p50 ≤
       (predict_row clip_negative capacity_kw has_solar has_ghi sinr x).p75 ∧
     (predict_row clip_negative capacity_kw has_solar has_ghi sinr x).p75 ≤
       (predict_row clip_negative capacity_kw has_solar has_ghi sinr x).p90)
    ∧ ∀ a b c d e : ℚ,
        repair5 a b c d e =
          (a, max a b, max (max a b) c,
           max (max (max a b) c) d, max (max (max (max a b) c) d) e)
        ∧ a ≤ (repair5 a b c d e).1
        ∧ b ≤ (repair5 a b c d e).2.1
        ∧ c ≤ (repair5 a b c d e).2.2.1
        ∧ d ≤ (repair5 a b c d e).2.2.2.1
        ∧ e ≤ (repair5 a b c d e).2.2.2.2 := by
  constructor
  · exact repair5_chain _ _ _ _ _
  · intro a b c d e
    exact ⟨rfl, le_refl a, le_max_right a b, le_max_right _ c,
           le_max_right _ d, le_max_right _ e⟩

/-- C4: create_ensemble_forecast raises immediately, before producing any
output, on each caller error: empty source mapping (EmptyEnsemble, with or
without weights); provided weights off 1 by more than 1e-6
(InvalidWeights); a source whose time index differs from the first
source's (ShapeMismatch) — the mismatched case returns the error instead
of any implicitly reindexed output. -/
theorem ensemble_caller_errors (fs : List (String × Frame))
    (w : List (String × ℚ)) (m : String) :
    (create_ensemble_forecast [] (some w) m = .error .EmptyEnsemble)
    ∧ (create_ensemble_forecast [] none m = .error .EmptyEnsemble)
    ∧ (fs ≠ [] → 1 / 1000000 < |sumWeights w - 1| →
        create_ensemble_forecast fs (some w) m = .error .InvalidWeights)
    ∧ (∀ f0 rest, fs = f0 :: rest → |sumWeights w - 1| ≤ 1 / 1000000 →
        (fs.any (fun p => p.2.index ≠ f0.2.index)) = true →
        create_ensemble_forecast fs (some w) m = .error .ShapeMismatch) := by
  refine ⟨rfl, rfl, ?_, ?_⟩
  · intro hne hw
    obtain ⟨f0, rest, rfl⟩ := List.exists_cons_of_ne_nil hne
    simp only [create_ensemble_forecast]
    rw [if_pos hw]
  · intro f0 rest hfs hle hany
    subst hfs
    simp only [create_ensemble_forecast]
    rw [if_neg (not_lt.mpr hle), if_pos hany]

/-- C4 witness: the three errors at concrete inputs — no forecasts;
weights summing to 1/2; two sources on different time indexes. -/
theorem ensemble_caller_errors_witness :
    create_ensemble_forecast [] (some [("a", 1/2)]) "weighted_average"
      = .error .EmptyEnsemble
    ∧ create_ensemble_forecast [("a", ⟨[0], [("prediction", [1])]⟩)]
        (some [("a", 1/2)]) "weighted_average" = .error .InvalidWeights
    ∧ create_ensemble_forecast
        [("a", ⟨[0], []⟩), ("b", ⟨[1], []⟩)]
        (some [("a", 1/2), ("b", 1/2)]) "weighted_average"
      = .error .ShapeMismatch :=
  ⟨(ensemble_caller_errors [] [("a", 1/2)] "weighted_average").1,
   (ensemble_caller_errors [("a", ⟨[0], [("prediction", [1])]⟩)]
      [("a", 1/2)] "weighted_average").2.2.1 (by simp)
      (by norm_num [sumWeights, abs_of_nonpos]),
   (ensemble_caller_errors [("a", ⟨[0], []⟩), ("b", ⟨[1], []⟩)]
      [("a", 1/2), ("b", 1/2)] "weighted_average").2.2.2 _ _ rfl
      (by norm_num [sumWeights]) (by decide)⟩

/-- C7: weighted_average of two identical constant series of value V with
weights a:0.3, b:0.7 on any shared time index returns the constant series
V exactly (exact rational arithmetic). -/
theorem ensemble_constant_identity (idx : List ℤ) (V : ℚ) :
    create_ensemble_forecast
      [("a", ⟨idx, [("prediction", List.replicate idx.length V)]⟩),
       ("b", ⟨idx, [("prediction", List.replicate idx.length V)]⟩)]
      (some [("a", 3/10), ("b", 7/10)]) "weighted_average"
    = .ok ⟨idx, [("prediction", List.replicate idx.length V)]⟩ := by
  have hab : (("a" : String) == "b") = false := by decide
  norm_num [create_ensemble_forecast, sumWeights, allColumnNames, weightedColumn,
    weightOf, seriesZero, Frame.getCol, List.find?, List.foldl, List.flatten,
    List.dedup_cons_of_mem, List.filterMap, hab]
  exact Or.inr (by ring)

/-- C5 counterexample: at elevation -10 (at or below -6) with configured
factor 0.85, the dawn/dusk multiplier is 1, not the configured factor, so
the claim's constant-at-factor branch is false. -/
theorem dawn_dusk_below_minus6_counterexample :
    dawn_dusk_performance_factor (85/100) (-10) = 1 ∧ (1 : ℚ) ≠ 85/100 := by
  constructor
  · norm_num [dawn_dusk_performance_factor]
  · norm_num

/-- C5 amended: the multiplier is 1.0 strictly above 15 degrees (and at
15 the interpolation also gives 1.0); on the open-closed band
(-6, 15] it is the linear interpolation f + (1-f)*((e+6)/21), which tends
to the configured factor as elevation approaches -6 from above; but at or
below -6 degrees the multiplier is the default 1.0, not the configured
factor. -/
theorem dawn_dusk_factor_piecewise (f e : ℚ) :
    (15 < e → dawn_dusk_performance_factor f e = 1)
    ∧ (-6 < e → e ≤ 15 →
        dawn_dusk_performance_factor f e = f + (1 - f) * ((e + 6) / 21))
    ∧ (e ≤ -6 → dawn_dusk_performance_factor f e = 1) := by
  simp only [dawn_dusk_performance_factor]
  refine ⟨?_, ?_, ?_⟩
  · intro h
    rw [if_neg]
    rintro ⟨-, h2⟩
    linarith
  · intro h1 h2
    rw [if_pos ⟨h1, h2⟩]
    norm_num
  · intro h
    rw [if_neg]
    rintro ⟨h1, -⟩
    linarith

/-- C5 witness: the three bands of the amended statement at elevations
20, 0 and -10 with configured factor 0.85. -/
theorem dawn_dusk_factor_piecewise_witness :
    ((15:ℚ) < 20 ∧ dawn_dusk_performance_factor (85/100) 20 = 1)
    ∧ ((-6:ℚ) < 0 ∧ (0:ℚ) ≤ 15 ∧
        dawn_dusk_performance_factor (85/100) 0
          = 85/100 + (1 - 85/100) * ((0 + 6) / 21))
    ∧ ((-10:ℚ) ≤ -6 ∧ dawn_dusk_performance_factor (85/100) (-10) = 1) :=
  ⟨⟨by norm_num, (dawn_dusk_factor_piecewise (85/100) 20).1 (by norm_num)⟩,
   ⟨by norm_num, by norm_num,
    (dawn_dusk_factor_piecewise (85/100) 0).2.1 (by norm_num) (by norm_num)⟩,
   ⟨by norm_num, (dawn_dusk_factor_piecewise (85/100) (-10)).2.2 (by norm_num)⟩⟩

/-- C9 counterexample: a MAPE of 3, strictly between 1 and 10, adds no
warning (and no failure): the report is returned unchanged, so the claim
that every such error is reported as a warning is false. -/
theorem mape_midband_silent_counterexample :
    (1:ℚ) < 3 ∧ (3:ℚ) < 10 ∧
    mape_validation_step 3 ⟨true, 0, 0⟩ = ⟨true, 0, 0⟩ := by
  refine ⟨by norm_num, by norm_num, ?_⟩
  norm_num [mape_validation_step, target_mape, warning_mape, failure_mape]

/-- C9 amended: MAPE above 10 appends a critical failure and fails the
gate; MAPE in (5, 10] appends a warning only; MAPE at or below 5
(including the whole band (1, 5]) changes nothing — the gate stays as it
was, with no warning recorded. -/
theorem mape_validation_bands (mape : ℚ) (r : ValidationReport) :
    (failure_mape < mape →
      mape_validation_step mape r =
        { r with critical_failures := r.critical_failures + 1,
                 validation_passed := false })
    ∧ (warning_mape < mape → mape ≤ failure_mape →
        mape_validation_step mape r = { r with warnings := r.warnings + 1 })
    ∧ (mape ≤ warning_mape → mape_validation_step mape r = r) := by
  have hc1 : target_mape < warning_mape := by norm_num [target_mape, warning_mape]
  have hc2 : warning_mape < failure_mape := by norm_num [warning_mape, failure_mape]
  refine ⟨?_, ?_, ?_⟩
  · intro h
    have ht : target_mape < mape := by linarith
    simp only [mape_validation_step, if_pos ht, if_pos h]
  · intro h1 h2
    have ht : target_mape < mape := by linarith
    have hf : ¬ failure_mape < mape := not_lt.mpr h2
    simp only [mape_validation_step, if_pos ht, if_neg hf, if_pos h1]
  · intro h
    by_cases ht : target_mape < mape
    · have hf : ¬ failure_mape < mape := by push_neg; linarith
      have hw : ¬ warning_mape < mape := not_lt.mpr h
      simp only [mape_validation_step, if_pos ht, if_neg hf, if_neg hw]
    · simp only [mape_validation_step, if_neg ht]

/-- C9 witness: the three amended bands at MAPE 12, 7 and 3. -/
theorem mape_validation_bands_witness :
    mape_validation_step 12 ⟨true, 0, 0⟩ = ⟨false, 1, 0⟩
    ∧ mape_validation_step 7 ⟨true, 0, 0⟩ = ⟨true, 0, 1⟩
    ∧ mape_validation_step 3 ⟨true, 0, 0⟩ = ⟨true, 0, 0⟩ :=
  ⟨(mape_validation_bands 12 ⟨true, 0, 0⟩).1 (by norm_num [failure_mape]),
   (mape_validation_bands 7 ⟨true, 0, 0⟩).2.1 (by norm_num [warning_mape])
     (by norm_num [failure_mape]),
   (mape_validation_bands 3 ⟨true, 0, 0⟩).2.2 (by norm_num [warning_mape])⟩

/-- C10: apply_weather_performance_ratios produces identical output for
any two performance_config mappings — the configured cloud-band ratios
never influence the result, because smooth_performance_transitions
rebuilds the ratio series from its hardcoded breakpoints
[0,20,50,80,100] and ratios [0.97,0.90,0.85,0.75,0.75], evaluated at
cloud cover only. -/
theorem weather_ratio_config_noninterference (forecast weather_data : Frame)
    (pc1 pc2 : PerformanceConfig) :
    apply_weather_performance_ratios forecast weather_data pc1
      = apply_weather_performance_ratios forecast weather_data pc2
    ∧ ∀ pr1 pr2 cc : Series,
        smooth_performance_transitions pr1 cc = smooth_performance_transitions pr2 cc
        ∧ smooth_performance_transitions pr1 cc = cc.map interpCloudRatio := by
  constructor
  · unfold apply_weather_performance_ratios
    rcases h : weather_data.getCol "cloud_cover" with _ | cc <;>
      simp only [h, smooth_performance_transitions]
  · intro pr1 pr2 cc
    exact ⟨rfl, rfl⟩

/-- Shared fact: the cubic through four equal values is that constant. -/
theorem cubicInterp4_const (e t : ℚ) : cubicInterp4 e e e e t = e := by
  unfold cubicInterp4
  ring

/-- Shared fact: resampling a constant nonnegative 4-point hourly energy
series yields the 13-point constant series e/4. -/
theorem resample_const (e : ℚ) (he : 0 ≤ e) :
    resample_energy_to_15min e e e e = List.replicate 13 (e / 4) := by
  unfold resample_energy_to_15min
  have hf : ∀ t ∈ quarterGrid,
      max (cubicInterp4 e e e e t) 0 / 4 = e / 4 := by
    intro t _
    rw [cubicInterp4_const, max_eq_left he]
  rw [List.map_congr_left hf, List.map_const']
  rfl

/-- C8 counterexample: the constant hourly series [1,1,1,1] totals 4, but
its 15-minute resampling totals 13/4 — the grid stops at the last hourly
timestamp, so the total is not preserved (off by 3/4, far beyond floating
tolerance). -/
theorem resample_total_not_preserved_counterexample :
    List.sum (resample_energy_to_15min 1 1 1 1) = 13/4
    ∧ List.sum [(1:ℚ), 1, 1, 1] = 4
    ∧ (13/4 : ℚ) ≠ 4 := by
  refine ⟨?_, by norm_num, by norm_num⟩
  rw [resample_const 1 (by norm_num)]
  simp [List.sum_replicate]
  norm_num

/-- C8 amended: the resampler divides the energy_mwh rate channel by the
resampling factor 4, but the 15-minute grid runs only from the first to
the last hourly timestamp (4*(n-1)+1 points), so the total is NOT
preserved: a constant nonnegative 4-point hourly series of value e
resamples to thirteen points of e/4, total 13*e/4, against an original
total of 4*e. -/
theorem resample_energy_divide_by_4_total_shrinks (e : ℚ) (he : 0 ≤ e) :
    resample_energy_to_15min e e e e = List.replicate 13 (e / 4)
    ∧ List.sum (resample_energy_to_15min e e e e) = 13 * e / 4
    ∧ List.sum [e, e, e, e] = 4 * e := by
  refine ⟨resample_const e he, ?_, by simp; ring⟩
  rw [resample_const e he]
  simp [List.sum_replicate, nsmul_eq_mul]
  ring

/-- C8 witness: the amended statement at the constant series e = 2. -/
theorem resample_energy_divide_by_4_total_shrinks_witness :
    (0:ℚ) ≤ 2
    ∧ (resample_energy_to_15min 2 2 2 2 = List.replicate 13 (2 / 4)
       ∧ List.sum (resample_energy_to_15min 2 2 2 2) = 13 * 2 / 4
       ∧ List.sum [(2:ℚ), 2, 2, 2] = 4 * 2) :=
  ⟨by norm_num, resample_energy_divide_by_4_total_shrinks 2 (by norm_num)⟩

/-- C6 counterexample: on a one-row forecast with trivial weather and
calibration (so steps (a)-(d) change nothing), apply_performance_adjustments
returns its input unchanged, while multiplying by the degradation scalar
(1 - 0.005)^10 — the claimed final step, for a 10-year-old plant — would
change it: degradation is not part of the calibrated output. -/
theorem degradation_not_applied_counterexample :
    apply_performance_adjustments (fun _ => 1)
        ⟨[0], [("prediction", [100])]⟩ ⟨[0], []⟩
        ⟨97/100, 90/100, 85/100, 75/100⟩ ⟨none, 1⟩
      = ⟨[0], [("prediction", [100])]⟩
    ∧ adjust_for_degradation ⟨[0], [("prediction", [100])]⟩ ((199/200) ^ 10)
      ≠ ⟨[0], [("prediction", [100])]⟩ := by
  constructor
  · simp [apply_performance_adjustments, apply_weather_performance_ratios,
      apply_seasonal_adjustments, applyCalibrationFactor,
      apply_temperature_derating, apply_dynamic_soiling, Frame.getCol]
  · simp only [adjust_for_degradation, mulColsScalar, powerColumns9,
      List.map_cons, List.map_nil, ne_eq, Frame.mk.injEq]
    norm_num

/-- C6 amended: apply_performance_adjustments applies weather ratios,
seasonal adjustments, the global calibration factor and temperature
derating, then a soiling step that returns its input unchanged — it never
invokes degradation; the degradation correction lives in the separate,
uncalled function adjust_for_degradation, which does multiply every power
channel entrywise by the single scalar (1-annual_rate)^years, uniformly at
every row, leaving the index and non-power channels unchanged. -/
theorem degradation_separate_uniform_scalar (month : ℤ → ℕ)
    (fc w : Frame) (pc : PerformanceConfig) (cc : CalibrationConfig)
    (f : Frame) (d : ℚ) :
    apply_performance_adjustments month fc w pc cc
      = apply_temperature_derating
          (applyCalibrationFactor
            (apply_seasonal_adjustments month
              (apply_weather_performance_ratios fc w pc)
              cc.seasonal_adjustments)
            cc.adjustment_factor)
          w pc
    ∧ apply_dynamic_soiling f cc = f
    ∧ (adjust_for_degradation f d).index = f.index
    ∧ ∀ p ∈ f.cols,
        (p.1 ∈ powerColumns9 →
          (p.1, p.2.map (· * d)) ∈ (adjust_for_degradation f d).cols)
        ∧ (p.1 ∉ powerColumns9 → p ∈ (adjust_for_degradation f d).cols) := by
  refine ⟨rfl, rfl, rfl, ?_⟩
  intro p hp
  constructor
  · intro hmem
    have : (p.1, p.2.map (· * d))
        = (fun q : String × Series =>
            if q.1 ∈ powerColumns9 then (q.1, q.2.map (· * d)) else q) p := by
      simp [hmem]
    rw [this]
    exact List.mem_map_of_mem _ hp
  · intro hmem
    have : p = (fun q : String × Series =>
            if q.1 ∈ powerColumns9 then (q.1, q.2.map (· * d)) else q) p := by
      simp [hmem]
    rw [this]
    exact List.mem_map_of_mem _ hp

/-- C6 witness: the amended statement at a concrete two-column frame and
degradation scalar 1/2: the power column is scaled entrywise, the
covariate column survives unchanged. -/
theorem degradation_separate_uniform_scalar_witness :
    apply_dynamic_soiling ⟨[0], [("prediction", [2, 6]), ("cloud_cover", [3])]⟩
        ⟨none, 1⟩
      = ⟨[0], [("prediction", [2, 6]), ("cloud_cover", [3])]⟩
    ∧ ("prediction", [(2:ℚ) * (1/2), 6 * (1/2)])
        ∈ (adjust_for_degradation
            ⟨[0], [("prediction", [2, 6]), ("cloud_cover", [3])]⟩ (1/2)).cols
    ∧ ("cloud_cover", [(3:ℚ)])
        ∈ (adjust_for_degradation
            ⟨[0], [("prediction", [2, 6]), ("cloud_cover", [3])]⟩ (1/2)).cols := by
  have h := degradation_separate_uniform_scalar (fun _ => 1)
    ⟨[0], []⟩ ⟨[0], []⟩ ⟨97/100, 90/100, 85/100, 75/100⟩ ⟨none, 1⟩
    ⟨[0], [("prediction", [2, 6]), ("cloud_cover", [3])]⟩ (1/2)
  refine ⟨h.2.1.symm ▸ rfl, ?_, ?_⟩
  · exact (h.2.2.2 ("prediction", [2, 6]) (by simp)).1 (by simp [powerColumns9])
  · exact (h.2.2.2 ("cloud_cover", [3]) (by simp)).2 (by simp [powerColumns9])

end SolarForecast
